import Mathlib

/-!
Verification of the process-supervision core of `src-tauri/src/main.rs`
(backend supervisor of the superAIAutoCutVideo desktop application).

The Rust code is shallowly embedded: the supervisor state (`AppState`),
the status record (`BackendStatus`), and the three Tauri commands
(`start_backend`, `stop_backend`, `get_backend_status`) become pure
Lean functions over an explicit state, with all OS / network effects
(non-blocking `try_wait`, HTTP probes, port binding, `spawn`, log file
contents, readiness polling) supplied by explicit environment oracles.
Machine integers (`u16` ports) are modelled as `Nat`; the only place
u16 overflow matters is the saturating accumulation inside the log
parser, which is modelled with explicit saturation at 65535.
-/

namespace SACV

/-- The compiled-in identity constant `BACKEND_IDENTIFIER` (main.rs line 74). -/
def BACKEND_IDENTIFIER : String := "super-auto-cut-video-backend"

/-- Mirror of the serialized `BackendStatus` record returned by the commands
(`main.rs` lines 77-83).  `port : u16` is modelled as `Nat`. -/
structure BackendStatus where
  running : Bool
  port : Nat
  pid : Option Nat
  boot_token : Option String
deriving DecidableEq, Repr

/-- An owned OS child process: the supervisor only ever reads its pid
(`child.id()`); liveness is answered by the `try_wait` oracle. -/
structure Child where
  id : Nat
deriving DecidableEq, Repr

/-- Mirror of `AppState` (`main.rs` lines 56-61): the mutex-guarded process
handle, recorded port, atomic start-in-progress flag and boot token.  In the
sequential model the mutexes disappear and the fields are plain values. -/
structure AppState where
  backend_process : Option Child
  backend_port : Nat
  backend_starting : Bool
  backend_boot_token : Option String
deriving DecidableEq, Repr

/-- Outcome of the non-blocking `child.try_wait()` call:
`Ok(Some(_))` = exited, `Ok(None)` = still running, `Err(_)` = check failed. -/
inductive TryWait
  | exited
  | running
  | err
deriving DecidableEq, Repr

/-! ## Discovery client (`discover_existing_backend`, `check_backend_on_port`)

An HTTP probe of `/api/server/info` on one port is abstracted by a
`ProbeResult`; the world is a function from port to `ProbeResult`.
`DataObj` holds the three fields the Rust code reads from the parsed
JSON `data` object (`as_str` / `as_u64` failures collapse to `none`). -/

/-- The `data` object of the info endpoint's JSON body, as read by the code:
`identifier` (string), `port` (u64, adopted only if it fits in u16),
`boot_token` (string). -/
structure DataObj where
  identifier : Option String
  port : Option Nat
  boot_token : Option String
deriving DecidableEq, Repr

/-- Parsed JSON body: the code first does `v.get("data")`. -/
structure InfoJson where
  dataField : Option DataObj
deriving DecidableEq, Repr

/-- Result of one HTTP GET on a candidate port: network error, or a response
with an HTTP status flag and (when the body parses as JSON) a body. -/
inductive ProbeResult
  | noResp
  | resp (success : Bool) (body : Option InfoJson)
deriving DecidableEq, Repr

/-- The `reported_port` binding of the probe: the `data.port` field when it
fits in a `u16` (`u16::try_from(n).ok()`), else the probed port. -/
def reportedPort (port : Nat) (d : DataObj) : Nat :=
  match d.port with
  | some n => if n ≤ 65535 then n else port
  | none => port

/-- The `boot_token` binding of the probe:
`data.boot_token` as a string, filtered to be non-empty. -/
def tokenOf (d : DataObj) : Option String :=
  match d.boot_token with
  | some t => if t ≠ "" then some t else none
  | none => none

/-- Mirror of `check_backend_on_port` (`main.rs` lines 177-212).  The same
parsing/validation chain also appears inlined in the scan loop of
`discover_existing_backend` (lines 136-171); both are embedded through this
one function.  The `timeout_ms` parameter only shapes physical time and is
dropped. -/
def check_backend_on_port (world : Nat → ProbeResult) (port : Nat)
    (require_token : Bool) : Option (Nat × Option String) :=
  match world port with
  | .noResp => none
  | .resp success body =>
    if !success then none
    else match body with
      | none => none
      | some v =>
        match v.dataField with
        | none => none
        | some data =>
          match data.identifier with
          | none => none
          | some ident =>
            if ident ≠ BACKEND_IDENTIFIER then none
            else if require_token && (tokenOf data).isNone then none
            else some (reportedPort port data, tokenOf data)

/-- The two scan ranges of `discover_existing_backend`:
`(8000, 8101)` and `(18000, 18101)`, i.e. `8000..8101` then `18000..18101`
(half-open Rust ranges, 101 ports each). -/
def scanPorts : List Nat := List.range' 8000 101 ++ List.range' 18000 101

/-- Mirror of `discover_existing_backend` (`main.rs` lines 124-175): probe
every port of both ranges in order and adopt the first compatible response. -/
def discover_existing_backend (world : Nat → ProbeResult)
    (require_token : Bool) : Option (Nat × Option String) :=
  scanPorts.findSome? (fun p => check_backend_on_port world p require_token)

/-! ## Log-based port recovery (`parse_backend_port_from_log`)

The log file content is a `List Char`; Rust byte positions coincide with
character positions on the ASCII content this parser targets.  `rfind` of a
substring/character, `find`, slicing and `contains` are implemented
literally. -/

/-- Position of the last occurrence of `needle` in `hay` (Rust `str::rfind`). -/
def rfindSub (hay needle : List Char) : Option Nat :=
  (List.range (hay.length + 1)).reverse.find? (fun i => needle.isPrefixOf (hay.drop i))

/-- Rust `str::contains` for a substring. -/
def containsSub (hay needle : List Char) : Bool :=
  (List.range (hay.length + 1)).any (fun i => needle.isPrefixOf (hay.drop i))

/-- Position of the last occurrence of character `c` (Rust `str::rfind(char)`). -/
def rfindChar (hay : List Char) (c : Char) : Option Nat :=
  (List.range hay.length).reverse.find? (fun i => hay.get? i == some c)

/-- Position of the first occurrence of character `c` (Rust `str::find(char)`). -/
def findChar (hay : List Char) (c : Char) : Option Nat :=
  (List.range hay.length).find? (fun i => hay.get? i == some c)

def newlineChar : Char := Char.ofNat 10

/-- The digit-accumulation loop of the parser: starting from `acc`, consume
ASCII digits with `u16` saturating arithmetic
(`num.saturating_mul(10).saturating_add(digit)`). -/
def scanDigits : List Char → Nat → Nat
  | [], n => n
  | c :: rest, n =>
    if c.isDigit then scanDigits rest (min (min (n * 10) 65535 + (c.toNat - 48)) 65535)
    else n

/-- Port number read at byte position `start` of the log content. -/
def scanPortAt (content : List Char) (start : Nat) : Nat :=
  scanDigits (content.drop start) 0

/-- The bare banner needle, also a substring of the two tagged variants. -/
def uvicornNeedle : List Char := String.toList "Uvicorn running on http://127.0.0.1:"

/-- The three exact (case-sensitive) banner needles tried first
(`main.rs` lines 234-238). -/
def uvicornNeedles : List (List Char) :=
  [uvicornNeedle,
   String.toList "[stdout] Uvicorn running on http://127.0.0.1:",
   String.toList "[stderr] Uvicorn running on http://127.0.0.1:"]

/-- First loop of the parser (`main.rs` lines 239-258): for each needle in
order, locate its last occurrence and read the digits after it; a zero or
absent port falls through to the next needle. -/
def tryNeedles (content : List Char) : List (List Char) → Option Nat
  | [] => none
  | needle :: rest =>
    match rfindSub content needle with
    | some pos =>
      let num := scanPortAt content (pos + needle.length)
      if num > 0 then some num else tryNeedles content rest
    | none => tryNeedles content rest

def hostNeedle : List Char := String.toList "http://127.0.0.1:"

/-- Fallback branch of the parser (`main.rs` lines 259-282): take the line
holding the last occurrence of the literal `http://127.0.0.1:`, lowercase it,
and accept its port only if the line mentions running/listening/serving. -/
def fallbackParse (content : List Char) : Option Nat :=
  match rfindSub content hostNeedle with
  | none => none
  | some pos =>
    let lineStart :=
      match rfindChar (content.take pos) newlineChar with
      | some i => i + 1
      | none => 0
    let lineEnd :=
      match findChar (content.drop pos) newlineChar with
      | some i => pos + i
      | none => content.length
    let line := (content.take lineEnd).drop lineStart
    let lower := line.map Char.toLower
    if containsSub lower (String.toList "running on")
        || containsSub lower (String.toList "listening on")
        || containsSub lower (String.toList "serving on") then
      let num := scanPortAt content (pos + hostNeedle.length)
      if num > 0 then some num else none
    else none

/-- Mirror of `parse_backend_port_from_log` (`main.rs` lines 231-284) on the
given log-file content (the `read_to_string` result; an unreadable log is the
empty content, on which every branch fails). -/
def parse_backend_port_from_log (content : List Char) : Option Nat :=
  match tryNeedles content uvicornNeedles with
  | some n => some n
  | none => fallbackParse content

/-! ## Port arbiter (`is_port_available`, `choose_backend_port`)

`is_port_available` wraps one `TcpListener::bind`; binding success is an OS
fact, abstracted as `avail : Nat → Bool`.  The ephemeral-bind fallback
(`bind(("127.0.0.1", 0))`) is abstracted as `ephemeral : Option Nat`. -/

/-- Mirror of `choose_backend_port` (`main.rs` lines 518-552). -/
def choose_backend_port (avail : Nat → Bool) (ephemeral : Option Nat)
    (is_dev_mode : Bool) : Nat :=
  if is_dev_mode then
    let preferred := 8000
    if avail preferred then preferred
    else
      match (List.range' 8000 101).find? avail with
      | some p => p
      | none =>
        match (List.range' 18000 101).find? avail with
        | some p => p
        | none => preferred
  else
    match (List.range' 18000 101).find? avail with
    | some p => p
    | none =>
      match (List.range' 8000 101).find? avail with
      | some p => p
      | none => ephemeral.getD 18000

/-! ## Quick discovery (`discover_existing_backend_quick`) -/

/-- The two well-known fallback ports of quick discovery
(`main.rs` lines 223-227): `18000` then `8000`. -/
def quickDefaults (world : Nat → ProbeResult)
    (require_token : Bool) : Option (Nat × Option String) :=
  match check_backend_on_port world 18000 require_token with
  | some found => some found
  | none => check_backend_on_port world 8000 require_token

/-- Mirror of `discover_existing_backend_quick` (`main.rs` lines 214-229):
verify the log-recovered port first, then the two defaults. -/
def discover_existing_backend_quick (world : Nat → ProbeResult)
    (logContent : List Char) (require_token : Bool) : Option (Nat × Option String) :=
  match parse_backend_port_from_log logContent with
  | some p =>
    match check_backend_on_port world p require_token with
    | some found => some found
    | none => quickDefaults world require_token
  | none => quickDefaults world require_token

/-! ## The supervisor commands (`start_backend`, `stop_backend`,
`get_backend_status`)

One sequential call of each command is embedded as a pure function of the
current `AppState` plus a `StartEnv` of oracles supplying every effectful
answer the Rust code consults, in program order.  Log writes
(`append_log_line`) and desktop notifications have no bearing on the
supervisor state and are dropped.  A spawn-syscall counter is threaded
through the result so that "no process was spawned" is expressible. -/

/-- The effectful answers consumed by one `start_backend` call, in the
order the Rust code asks for them. -/
structure StartEnv where
  /-- Result of `child.try_wait()` in the initial lock section. -/
  tryWait : TryWait
  /-- `TAURI_DEV` equals `"1"`. -/
  isDev : Bool
  /-- Parsed positive `SACV_FORCE_PORT` (`.filter(|p| *p > 0)`). -/
  forcedPort : Option Nat
  /-- The HTTP world seen by pre-launch discovery. -/
  world : Nat → ProbeResult
  /-- Log-file content read by pre-launch quick discovery. -/
  logContent : List Char
  /-- Command resolution (`resource_dir`, `ensure_backend_executable_available`,
  packaged-exe / dev-script search): `Except` of the error string returned on
  `ResolutionError`. -/
  resolve : Except String Unit
  /-- `is_port_available` answers, i.e. `TcpListener::bind` success per port. -/
  avail : Nat → Bool
  /-- OS-assigned ephemeral port of the production last-resort bind. -/
  ephemeral : Option Nat
  /-- The freshly generated boot token (`generate_boot_token()`). -/
  bootToken : String
  /-- `cmd.spawn()`: the child's pid on success, `none` on OS failure. -/
  spawnResult : Option Nat
  /-- `wait_for_backend_ready(host, port, 60)`. -/
  waitReady : Bool
  /-- Log-file content at the readiness-timeout fallback. -/
  logAtFallback : List Char
  /-- The HTTP world seen by the readiness-timeout re-discovery. -/
  world2 : Nat → ProbeResult

/-- Result of one `start_backend` call: the command's `Result`, the
post-call supervisor state, and how many processes the call spawned. -/
structure StartResult where
  res : Except String BackendStatus
  state : AppState
  spawns : Nat
deriving Repr

/-- `main.rs` lines 1002-1110: set port and token, spawn, and either report
readiness or run the log-recovery / re-discovery fallback.  Entered with
`backend_starting` already set.  On spawn failure the state is reset
(port 0, token cleared, flag cleared) and the error surfaces; on readiness
timeout the spawned child is kept in the state in every branch. -/
def start_phase_launch (env : StartEnv) (st : AppState) : StartResult :=
  let port := env.forcedPort.getD (choose_backend_port env.avail env.ephemeral env.isDev)
  let token := env.bootToken
  let st1 : AppState :=
    { st with backend_port := port, backend_boot_token := some token }
  match env.spawnResult with
  | none =>
    ⟨.error "启动后端失败",
     { st1 with backend_starting := false, backend_port := 0,
                backend_boot_token := none }, 1⟩
  | some pid =>
    let st2 : AppState :=
      { st1 with backend_process := some ⟨pid⟩, backend_starting := false }
    if env.waitReady then
      ⟨.ok ⟨true, port, some pid, some token⟩, st2, 1⟩
    else
      match parse_backend_port_from_log env.logAtFallback with
      | some fp =>
        ⟨.ok ⟨true, fp, some pid, st2.backend_boot_token⟩,
         { st2 with backend_port := fp }, 1⟩
      | none =>
        match discover_existing_backend_quick env.world2 env.logAtFallback (!env.isDev) with
        | some (fp, ftok) =>
          ⟨.ok ⟨true, fp, some pid, ftok⟩,
           { st2 with backend_port := fp, backend_boot_token := ftok }, 1⟩
        | none =>
          ⟨.error "后端服务启动超时，但进程已保留；请查看临时日志 super_auto_cut_backend.log",
           st2, 1⟩

/-- `main.rs` lines 916-933: the atomic `backend_starting.swap(true)` guard.
A concurrent launch in flight makes the call sleep briefly and report the
currently recorded port (running iff non-zero) with `pid = None`. -/
def start_phase_guard (env : StartEnv) (st : AppState) : StartResult :=
  if st.backend_starting then
    ⟨.ok ⟨st.backend_port != 0, st.backend_port, none, st.backend_boot_token⟩, st, 0⟩
  else
    start_phase_launch env { st with backend_starting := true }

/-- `main.rs` lines 633-914: resolve the backend command; a resolution error
(missing packaged exe, missing dev script, failed unpack) aborts the call
before the starting-flag swap, leaving the state untouched. -/
def start_phase_resolve (env : StartEnv) (st : AppState) : StartResult :=
  match env.resolve with
  | .error e => ⟨.error e, st, 0⟩
  | .ok _ => start_phase_guard env st

/-- `main.rs` lines 599-631: pre-launch discovery.  In dev mode (no forced
port) the exhaustive scan runs without requiring a token; in production the
quick scan runs requiring one.  A discovered backend is adopted: its port and
token are recorded and the call returns `running=true, pid=None`. -/
def start_phase_discover (env : StartEnv) (st : AppState) : StartResult :=
  if env.isDev && env.forcedPort.isNone then
    match discover_existing_backend env.world false with
    | some (p, tok) =>
      ⟨.ok ⟨true, p, none, tok⟩,
       { st with backend_port := p, backend_boot_token := tok }, 0⟩
    | none => start_phase_resolve env st
  else if !env.isDev && env.forcedPort.isNone then
    match discover_existing_backend_quick env.world env.logContent true with
    | some (p, tok) =>
      ⟨.ok ⟨true, p, none, tok⟩,
       { st with backend_port := p, backend_boot_token := tok }, 0⟩
    | none => start_phase_resolve env st
  else start_phase_resolve env st

/-- Mirror of `start_backend` (`main.rs` lines 555-1111).  The initial
lock section (lines 566-597): an owned child confirmed alive by `try_wait`
short-circuits with the current status; an exited or uncheckable child is
cleared before proceeding. -/
def start_backend (env : StartEnv) (st : AppState) : StartResult :=
  match st.backend_process with
  | some child =>
    match env.tryWait with
    | .running =>
      ⟨.ok ⟨true, st.backend_port, some child.id, st.backend_boot_token⟩, st, 0⟩
    | .exited => start_phase_discover env { st with backend_process := none }
    | .err => start_phase_discover env { st with backend_process := none }
  | none => start_phase_discover env st

/-- Result of one `stop_backend` call. -/
structure StopResult where
  res : Except String Bool
  state : AppState
deriving Repr

/-- Mirror of `stop_backend` (`main.rs` lines 1115-1143): `take()` the owned
handle; if present, kill and wait, then reset port and token (kill failure
surfaces as an error, the handle staying taken); if absent, succeed with
`false`.  The Windows same-name sweep (`kill_all_backend_processes`) touches
no supervisor state and is dropped.  `killOk` is the `child.kill()` outcome. -/
def stop_backend (killOk : Bool) (st : AppState) : StopResult :=
  match st.backend_process with
  | some _ =>
    let st1 : AppState := { st with backend_process := none }
    if killOk then
      ⟨.ok true, { st1 with backend_port := 0, backend_boot_token := none }⟩
    else
      ⟨.error "停止后端失败", st1⟩
  | none => ⟨.ok false, st⟩

/-- Result of one `get_backend_status` call. -/
structure StatusResult where
  res : Except String BackendStatus
  state : AppState
deriving Repr

/-- Mirror of `get_backend_status` (`main.rs` lines 1147-1182): an owned
child whose exit status is available is dropped from the state and reported
not running; a live child reports the recorded port and token; no owned
child reports `running=false, port=0, pid=None`. -/
def get_backend_status (tw : TryWait) (st : AppState) : StatusResult :=
  match st.backend_process with
  | some child =>
    match tw with
    | .exited =>
      ⟨.ok ⟨false, 0, none, none⟩, { st with backend_process := none }⟩
    | .running =>
      ⟨.ok ⟨true, st.backend_port, some child.id, st.backend_boot_token⟩, st⟩
    | .err => ⟨.error "检查进程状态失败", st⟩
  | none => ⟨.ok ⟨false, 0, none, none⟩, st⟩

/-! ## Artifact stager (`ensure_backend_executable_available`, Windows)

The filesystem facts the function consults are collected in `WinFS`:
whether `is_valid_backend_root` holds of the flat and the nested unpack
roots (executable present and `_internal/python311.dll` present), whether
the bundled zip exists, the zip's mtime fingerprint and the recorded stamp,
and the outcome of the two extraction strategies.  `validExtractedPost` /
`validNestedPost` are the validity facts that hold after a successful
extraction.  The returned `WinFS` carries the final on-disk validity, so
"the returned path is a validated executable" is expressible. -/

structure WinFS where
  /-- `is_valid_backend_root(extracted_backend_dir)` before any change. -/
  validExtracted : Bool
  /-- `is_valid_backend_root(nested_backend_dir)` before any change. -/
  validNested : Bool
  /-- `zip_path.exists()`. -/
  zipExists : Bool
  /-- `zip_stamp()`: mtime fingerprint of the archive. -/
  zipStamp : Option String
  /-- `read_stamp()`: content of the `.backend_zip_stamp` marker. -/
  recordedStamp : Option String
  /-- `ZipArchive::extract` succeeded. -/
  primaryExtractOk : Bool
  /-- The PowerShell fallback process could be spawned. -/
  shellSpawnOk : Bool
  /-- The PowerShell fallback exited successfully. -/
  shellStatusOk : Bool
  /-- `is_valid_backend_root(extracted_backend_dir)` after extraction. -/
  validExtractedPost : Bool
  /-- `is_valid_backend_root(nested_backend_dir)` after extraction. -/
  validNestedPost : Bool
deriving DecidableEq, Repr

/-- The two executable locations the function can return: the expected exe
under the flat unpack root (`extracted_backend_dir`, also the path returned
unvalidated when the zip is absent) and under the nested root. -/
inductive ExePath
  | extractedExe
  | nestedExe
deriving DecidableEq, Repr

/-- Does `path` denote a validated backend executable in filesystem state
`fs` (i.e. `is_valid_backend_root` holds of its root)? -/
def validAt (fs : WinFS) : ExePath → Bool
  | .extractedExe => fs.validExtracted
  | .nestedExe => fs.validNested

/-- Mirror of the `should_refresh` closure (`main.rs` lines 412-424). -/
def should_refresh (fs : WinFS) : Bool :=
  if !fs.zipExists then false
  else
    match fs.zipStamp with
    | none => false
    | some want =>
      match fs.recordedStamp with
      | some got => !(got == want)
      | none => true

structure EnsureResult where
  res : Except String ExePath
  fs : WinFS
deriving Repr

/-- Post-extraction validation (`main.rs` lines 486-500): write the stamp,
accept a valid flat or nested root, otherwise remove the tree and fail. -/
def ensure_post_extract (fs : WinFS) : EnsureResult :=
  let fs2 : WinFS :=
    { fs with validExtracted := fs.validExtractedPost,
              validNested := fs.validNestedPost,
              recordedStamp := fs.zipStamp }
  if fs2.validExtracted then ⟨.ok .extractedExe, fs2⟩
  else if fs2.validNested then ⟨.ok .nestedExe, fs2⟩
  else
    ⟨.error "解压后未找到 superAutoCutVideoBackend.exe",
     { fs2 with validExtracted := false, validNested := false }⟩

/-- Mirror of `ensure_backend_executable_available` (`main.rs` lines
378-501).  Reuse a valid unpacked root when the stamp is current; otherwise
remove the stale tree, and — when the zip is absent — return the default
expected path without validating it; when present, extract (PowerShell
`Expand-Archive` as fallback) and re-validate. -/
def ensure_backend_executable_available (fs : WinFS) : EnsureResult :=
  if fs.validExtracted && !(should_refresh fs) then ⟨.ok .extractedExe, fs⟩
  else if fs.validNested && !(should_refresh fs) then ⟨.ok .nestedExe, fs⟩
  else
    let fs1 : WinFS := { fs with validExtracted := false, validNested := false }
    if !fs.zipExists then ⟨.ok .extractedExe, fs1⟩
    else if fs.primaryExtractOk then ensure_post_extract fs1
    else if !fs.shellSpawnOk then
      ⟨.error "调用 PowerShell 解压失败", fs1⟩
    else if !fs.shellStatusOk then
      ⟨.error "解压后端ZIP包失败", fs1⟩
    else ensure_post_extract fs1

/-! ## Two concurrent `start_backend` calls

For the concurrency claim the shared-state interactions of one call are
broken into atomic steps, exactly the points where the Rust code touches
`AppState` under the lock or the atomic flag:

  `check`     — initial lock section: an owned child short-circuits
  `disc`      — pre-launch discovery + command resolution (here: finds
                nothing / succeeds, the scenario of the claim: no backend
                is running and none answers during the launch window)
  `swap`      — `backend_starting.swap(true, SeqCst)`
  `sleepRead` — loser path: sleep 300ms, read recorded port, return it
                with `pid = None`
  `setPort`   — record chosen port and token (lines 982-983)
  `spawnStep` — `cmd.spawn()` (assumed to succeed)
  `store`     — store the child handle (lines 1041-1044)
  `clear`     — `backend_starting.store(false)` (line 1045), then the
                readiness wait and the final return (thread-local)

Two threads with their own chosen port / pid interleave under an arbitrary
schedule (a `List Bool`, `true` stepping the first caller). -/

inductive PC
  | check | disc | swap | sleepRead | setPort | spawnStep | store | clear | done
deriving DecidableEq, Repr

/-- The caller-visible part of a status in the concurrency model. -/
structure BStat where
  running : Bool
  port : Nat
  pid : Option Nat
deriving DecidableEq, Repr

/-- One caller: program counter, its chosen port and spawned pid, the value
its `swap` observed, and its returned status. -/
structure Th where
  pc : PC
  myPort : Nat
  myPid : Nat
  observed : Option Bool
  res : Option BStat
deriving DecidableEq, Repr

/-- The shared supervisor state, with a ghost spawn-syscall counter. -/
structure Shared where
  child : Option Nat
  port : Nat
  starting : Bool
  spawnCount : Nat
deriving DecidableEq, Repr

structure Sys where
  sh : Shared
  t1 : Th
  t2 : Th
deriving DecidableEq, Repr

/-- One atomic step of a single caller against the shared state. -/
def stepTh (sh : Shared) (t : Th) : Shared × Th :=
  match t.pc with
  | .check =>
    match sh.child with
    | some pid =>
      (sh, { t with pc := .done, res := some ⟨true, sh.port, some pid⟩ })
    | none => (sh, { t with pc := .disc })
  | .disc => (sh, { t with pc := .swap })
  | .swap =>
    let old := sh.starting
    ({ sh with starting := true },
     { t with observed := some old,
              pc := if old then .sleepRead else .setPort })
  | .sleepRead =>
    (sh, { t with pc := .done, res := some ⟨sh.port != 0, sh.port, none⟩ })
  | .setPort => ({ sh with port := t.myPort }, { t with pc := .spawnStep })
  | .spawnStep =>
    ({ sh with spawnCount := sh.spawnCount + 1 }, { t with pc := .store })
  | .store => ({ sh with child := some t.myPid }, { t with pc := .clear })
  | .clear =>
    ({ sh with starting := false },
     { t with pc := .done, res := some ⟨true, t.myPort, some t.myPid⟩ })
  | .done => (sh, t)

/-- Step the scheduled caller (`true` = first caller). -/
def stepSys (c : Bool) (s : Sys) : Sys :=
  if c then
    let p := stepTh s.sh s.t1
    ⟨p.1, p.2, s.t2⟩
  else
    let p := stepTh s.sh s.t2
    ⟨p.1, s.t1, p.2⟩

/-- Run a schedule from a system state. -/
def runSched (sched : List Bool) (s : Sys) : Sys :=
  sched.foldl (fun s c => stepSys c s) s

/-- Initial state of the claim's scenario: no backend running, port 0, flag
clear, two callers about to enter `start_backend`. -/
def initSys (p1 i1 p2 i2 : Nat) : Sys :=
  ⟨⟨none, 0, false, 0⟩, ⟨.check, p1, i1, none, none⟩, ⟨.check, p2, i2, none, none⟩⟩

/-- The launch window of a caller: after its swap observed `false` (it owns
the in-progress launch) and before it cleared the flag. -/
def inRegion (t : Th) : Prop :=
  t.pc = .setPort ∨ t.pc = .spawnStep ∨ t.pc = .store ∨ t.pc = .clear

/-- How many spawn syscalls this caller has performed so far: one once it
has passed `spawnStep` (then it is at `store`/`clear`, or `done` having
taken the launch path, i.e. having observed `false`). -/
def spawnedOf (t : Th) : Nat :=
  match t.pc with
  | .store => 1
  | .clear => 1
  | .done =>
    match t.observed with
    | some false => 1
    | _ => 0
  | _ => 0

/-- Consistency of a caller's `observed` field with its program counter. -/
def obsOk (t : Th) : Prop :=
  ((t.pc = .check ∨ t.pc = .disc ∨ t.pc = .swap) → t.observed = none) ∧
  (inRegion t → t.observed = some false) ∧
  (t.pc = .sleepRead → t.observed = some true)

/-- Inductive invariant of the two-caller system: the spawn count is the sum
of the per-caller counts, `observed` fields are consistent, the flag is set
only while some caller is inside its launch window, a second caller that
observed `true` implies the first observed `false`, and such a second caller
finishes with a `pid = None` result. -/
def SysInv (s : Sys) : Prop :=
  s.sh.spawnCount = spawnedOf s.t1 + spawnedOf s.t2 ∧
  obsOk s.t1 ∧ obsOk s.t2 ∧
  (s.sh.starting = true → inRegion s.t1 ∨ inRegion s.t2) ∧
  (s.t2.observed = some true → s.t1.observed = some false) ∧
  (s.t2.pc = .done → s.t2.observed = some true →
    ∃ r, s.t2.res = some r ∧ r.pid = none)

/-! ## Concrete fixtures used by witnesses and counterexamples -/

/-- The identifier an HTTP probe of a port reported, when the call
succeeded and its body parsed: `data.identifier` of a successful response. -/
def probedIdentifier : ProbeResult → Option String
  | .noResp => none
  | .resp success body =>
    if success then
      match body with
      | some v =>
        match v.dataField with
        | some d => d.identifier
        | none => none
      | none => none
    else none

/-- A world in which only port 8000 answers, compatibly, reporting port 8005
and a boot token. -/
def worldGood : Nat → ProbeResult := fun q =>
  if q = 8000 then
    .resp true (some ⟨some ⟨some BACKEND_IDENTIFIER, some 8005, some "tok"⟩⟩)
  else .noResp

/-- A world in which nothing answers. -/
def worldEmpty : Nat → ProbeResult := fun _ => .noResp

/-- An environment for a call over a healthy owned process. -/
def envIdem : StartEnv :=
  { tryWait := .running, isDev := false, forcedPort := none,
    world := worldEmpty, logContent := [], resolve := .ok (),
    avail := fun _ => true, ephemeral := none, bootToken := "tk",
    spawnResult := some 7, waitReady := true, logAtFallback := [],
    world2 := worldEmpty }

/-- A state owning a live child with pid 42 on port 8000. -/
def stIdem : AppState := ⟨some ⟨42⟩, 8000, false, some "b"⟩

/-- An environment whose launch attempt fails at `spawn`. -/
def envSpawnFail : StartEnv :=
  { envIdem with tryWait := .exited, spawnResult := none }

/-- An environment whose spawn succeeds (pid 9) but readiness times out and
neither the log nor re-discovery recovers a port. -/
def envTimeout : StartEnv :=
  { envIdem with tryWait := .exited, spawnResult := some 9, waitReady := false }

/-- The empty supervisor state at application start. -/
def stIdle : AppState := ⟨none, 0, false, none⟩

/-- A state with an exited owned child (pid 5) and stale port/token fields. -/
def stExited : AppState := ⟨some ⟨5⟩, 8000, false, some "t"⟩

/-- Only port 18050 is free for binding. -/
def availOnly18050 : Nat → Bool := fun p => p == 18050

/-- A log whose last `running on http://<host>:<port>` banner is the
non-Uvicorn one on port 9000, while an earlier Uvicorn banner names 8000. -/
def logTwoBanners : List Char :=
  String.toList "Uvicorn running on http://127.0.0.1:8000\nApp running on http://127.0.0.1:9000\n"

/-- A banner matching `running on http://<host>:<port>` only up to case:
the scheme is upper-cased. -/
def logUpperScheme : List Char :=
  String.toList "Running On HTTP://127.0.0.1:9000\n"

/-- A log with two Uvicorn banners; the later one names port 9100. -/
def logTwoUvicorn : List Char :=
  String.toList "x\nUvicorn running on http://127.0.0.1:8000\nUvicorn running on http://127.0.0.1:9100\n"

/-- Filesystem state with no valid unpacked tree and no bundled zip. -/
def fsNoZip : WinFS :=
  ⟨false, false, false, none, none, false, false, false, false, false⟩

/-- Filesystem state with a valid flat unpack and a current stamp. -/
def fsFresh : WinFS :=
  ⟨true, false, true, some "10.5", some "10.5", true, true, true, true, false⟩

/-- Schedule in which the second caller passes the owned-process check early
but reaches its flag swap only after the first caller has already cleared
the flag: both callers spawn. -/
def schedTwoSpawns : List Bool :=
  [false, false, true, true, true, true, true, true, true,
   false, false, false, false, false]

/-- Schedule in which the second caller's swap lands inside the first
caller's launch window, before the port is recorded: the second returns
port 0 while the first returns its chosen port. -/
def schedZeroPort : List Bool :=
  [true, true, false, false, true, false, false, true, true, true, true]

/-! # Theorems -/

/-- C1: when an owned backend process exists and its non-blocking exit check
reports it still running, `start_backend` returns `Ok` with `running=true`,
the currently recorded port, that process's pid and the recorded boot token,
spawning nothing and leaving the state unchanged; hence a second sequential
`start` over the still-healthy process yields the same port and pid again. -/
theorem start_backend_idempotent (env env2 : StartEnv) (st : AppState) (c : Child)
    (hproc : st.backend_process = some c)
    (halive : env.tryWait = .running)
    (halive2 : env2.tryWait = .running) :
    start_backend env st =
      ⟨.ok ⟨true, st.backend_port, some c.id, st.backend_boot_token⟩, st, 0⟩ ∧
    start_backend env2 (start_backend env st).state =
      ⟨.ok ⟨true, st.backend_port, some c.id, st.backend_boot_token⟩, st, 0⟩ := by
  have h1 : start_backend env st =
      ⟨.ok ⟨true, st.backend_port, some c.id, st.backend_boot_token⟩, st, 0⟩ := by
    simp [start_backend, hproc, halive]
  refine ⟨h1, ?_⟩
  rw [h1]
  simp [start_backend, hproc, halive2]

/-- C1 witness: over a live owned child (pid 42, port 8000) both sequential
calls report port 8000 and pid 42 without spawning. -/
theorem start_backend_idempotent_witness :
    start_backend envIdem stIdem =
      ⟨.ok ⟨true, 8000, some 42, some "b"⟩, stIdem, 0⟩ ∧
    start_backend envIdem (start_backend envIdem stIdem).state =
      ⟨.ok ⟨true, 8000, some 42, some "b"⟩, stIdem, 0⟩ :=
  start_backend_idempotent envIdem envIdem stIdem ⟨42⟩ rfl rfl rfl

/-- C3: from any supervisor state and environment, `start_backend` then
`stop_backend` then `get_backend_status` ends with no owned process and the
final status is `running=false, port=0, pid=None`; and whenever the stop
found an owned child and its kill succeeded, the stop reset the recorded
port to 0 and the boot token to `None`. -/
theorem start_stop_status_roundtrip (env : StartEnv) (killOk : Bool)
    (tw : TryWait) (st : AppState) :
    ((get_backend_status tw (stop_backend killOk (start_backend env st).state).state).state.backend_process = none ∧
      (get_backend_status tw (stop_backend killOk (start_backend env st).state).state).res =
        .ok ⟨false, 0, none, none⟩) ∧
    (∀ c, (start_backend env st).state.backend_process = some c → killOk = true →
      (stop_backend killOk (start_backend env st).state).state.backend_port = 0 ∧
      (stop_backend killOk (start_backend env st).state).state.backend_boot_token = none) := by
  generalize (start_backend env st).state = s1
  have hstop : (stop_backend killOk s1).state.backend_process = none := by
    cases hp : s1.backend_process <;> cases killOk <;>
      simp [stop_backend, hp]
  refine ⟨?_, ?_⟩
  · constructor <;> simp [get_backend_status, hstop]
  · intro c hc hk
    simp [stop_backend, hc, hk]

/-- C3 witness: from the idle state, with a spawn-failing environment,
the round trip ends not running on port 0 with no pid. -/
theorem start_stop_status_roundtrip_witness :
    ((get_backend_status .running (stop_backend true (start_backend envSpawnFail stIdle).state).state).state.backend_process = none ∧
      (get_backend_status .running (stop_backend true (start_backend envSpawnFail stIdle).state).state).res =
        .ok ⟨false, 0, none, none⟩) ∧
    (∀ c, (start_backend envSpawnFail stIdle).state.backend_process = some c → true = true →
      (stop_backend true (start_backend envSpawnFail stIdle).state).state.backend_port = 0 ∧
      (stop_backend true (start_backend envSpawnFail stIdle).state).state.backend_boot_token = none) :=
  start_stop_status_roundtrip envSpawnFail true .running stIdle

/-- C6 counterexample: on a state owning an exited child with recorded port
8000 and a boot token, `get_backend_status` reports
`running=false, port=0, pid=None` and drops the handle, but the recorded
port and boot token fields of the supervisor state are NOT cleared. -/
theorem get_backend_status_exited_counterexample :
    (get_backend_status .exited stExited).res = .ok ⟨false, 0, none, none⟩ ∧
    (get_backend_status .exited stExited).state.backend_process = none ∧
    (get_backend_status .exited stExited).state.backend_port = 8000 ∧
    (get_backend_status .exited stExited).state.backend_boot_token = some "t" :=
  ⟨rfl, rfl, rfl, rfl⟩

/-- C6 (amended): when the owned child's exit status is available,
`get_backend_status` reports `running=false, port=0, pid=None` and clears
the owned process handle only, leaving the recorded port and boot token
fields of the state unchanged. -/
theorem get_backend_status_exited_clears_handle (st : AppState) (c : Child)
    (h : st.backend_process = some c) :
    get_backend_status .exited st =
      ⟨.ok ⟨false, 0, none, none⟩, { st with backend_process := none }⟩ := by
  simp [get_backend_status, h]

/-- C6 amended witness: evaluated on the exited-child state. -/
theorem get_backend_status_exited_clears_handle_witness :
    get_backend_status .exited stExited =
      ⟨.ok ⟨false, 0, none, none⟩, { stExited with backend_process := none }⟩ :=
  get_backend_status_exited_clears_handle stExited ⟨5⟩ rfl

/-- C4: when the OS spawn of the resolved backend command fails, the call
returns an error and resets the state — recorded port 0, boot token cleared,
start-in-progress flag cleared — after exactly one spawn attempt. -/
theorem start_backend_spawn_failure (env : StartEnv) (st : AppState)
    (hproc : st.backend_process = none)
    (hd1 : discover_existing_backend env.world false = none)
    (hd2 : discover_existing_backend_quick env.world env.logContent true = none)
    (hres : env.resolve = .ok ())
    (hflag : st.backend_starting = false)
    (hspawn : env.spawnResult = none) :
    start_backend env st = ⟨.error "启动后端失败", ⟨none, 0, false, none⟩, 1⟩ := by
  obtain ⟨p, pt, fl, tk⟩ := st
  simp only at hproc hflag
  subst hproc hflag
  cases hdev : env.isDev <;> cases hfp : env.forcedPort <;>
    simp [start_backend, start_phase_discover, hdev, hfp, hd1, hd2,
          start_phase_resolve, hres, start_phase_guard,
          start_phase_launch, hspawn]

/-- C4 witness: a spawn-failing launch from the idle state errors out with
the state reset and one spawn attempt. -/
theorem start_backend_spawn_failure_witness :
    start_backend envSpawnFail stIdle =
      ⟨.error "启动后端失败", ⟨none, 0, false, none⟩, 1⟩ :=
  start_backend_spawn_failure envSpawnFail stIdle rfl (by decide) (by decide)
    rfl rfl rfl

/-- C5: when the spawned backend fails the readiness wait, `start_backend`
keeps the spawned process handle stored in the state in every fallback
branch (port recovered from the log, port recovered by re-discovery, or the
final timeout error), and never spawns or kills anything further. -/
theorem start_backend_timeout_keeps_child (env : StartEnv) (st : AppState) (pid : Nat)
    (hproc : st.backend_process = none)
    (hd1 : discover_existing_backend env.world false = none)
    (hd2 : discover_existing_backend_quick env.world env.logContent true = none)
    (hres : env.resolve = .ok ())
    (hflag : st.backend_starting = false)
    (hspawn : env.spawnResult = some pid)
    (hwait : env.waitReady = false) :
    (start_backend env st).state.backend_process = some ⟨pid⟩ ∧
    (start_backend env st).spawns = 1 := by
  obtain ⟨p, pt, fl, tk⟩ := st
  simp only at hproc hflag
  subst hproc hflag
  cases hdev : env.isDev <;> cases hfp : env.forcedPort <;>
    cases hlp : parse_backend_port_from_log env.logAtFallback <;>
      simp [start_backend, start_phase_discover, hdev, hfp, hd1, hd2,
            start_phase_resolve, hres, start_phase_guard,
            start_phase_launch, hspawn, hwait, hlp]
  all_goals (split <;> simp)

/-- C5 witness: a launch (pid 9) that times out with no recoverable port
still leaves the child handle owned, after exactly one spawn. -/
theorem start_backend_timeout_keeps_child_witness :
    (start_backend envTimeout stIdle).state.backend_process = some ⟨9⟩ ∧
    (start_backend envTimeout stIdle).spawns = 1 :=
  start_backend_timeout_keeps_child envTimeout stIdle 9 rfl (by decide)
    (by decide) rfl rfl rfl rfl

/-- C7: whenever every port of 8000-8100 is occupied and some port of
18000-18100 is free for binding, `choose_backend_port` — in development and
in production mode alike — returns a free port within 18000-18100. -/
theorem choose_backend_port_fallback (avail : Nat → Bool) (ephemeral : Option Nat)
    (is_dev_mode : Bool)
    (h8 : ∀ p, 8000 ≤ p → p ≤ 8100 → avail p = false)
    (h18 : ∃ q, 18000 ≤ q ∧ q ≤ 18100 ∧ avail q = true) :
    18000 ≤ choose_backend_port avail ephemeral is_dev_mode ∧
    choose_backend_port avail ephemeral is_dev_mode ≤ 18100 ∧
    avail (choose_backend_port avail ephemeral is_dev_mode) = true := by
  have hfind8 : (List.range' 8000 101).find? avail = none := by
    rw [List.find?_eq_none]
    intro x hx
    rw [List.mem_range'_1] at hx
    simp [h8 x hx.1 (by omega)]
  have hsome : ((List.range' 18000 101).find? avail).isSome = true := by
    rw [List.find?_isSome]
    obtain ⟨q, hq1, hq2, hq3⟩ := h18
    exact ⟨q, List.mem_range'_1.mpr ⟨hq1, by omega⟩, hq3⟩
  obtain ⟨r, hr⟩ := Option.isSome_iff_exists.mp hsome
  have hrmem := List.mem_of_find?_eq_some hr
  rw [List.mem_range'_1] at hrmem
  have hrp := List.find?_some hr
  have h8000 : avail 8000 = false := h8 8000 (by omega) (by omega)
  cases is_dev_mode <;>
    simp [choose_backend_port, hfind8, hr, h8000] <;>
    exact ⟨hrmem.1, by omega, hrp⟩

/-- A token accepted by the probe filter is non-empty. -/
theorem tokenOf_some_ne_empty (d : DataObj) (t : String)
    (h : tokenOf d = some t) : t ≠ "" := by
  unfold tokenOf at h
  split at h
  · split at h
    · exact Option.some.inj h ▸ (by assumption)
    · cases h
  · cases h

/-- A successful probe of one port implies the response carried the expected
identifier, and a non-empty token when one was required. -/
theorem check_backend_on_port_spec (world : Nat → ProbeResult) (port : Nat)
    (rt : Bool) (p : Nat) (tok : Option String)
    (h : check_backend_on_port world port rt = some (p, tok)) :
    probedIdentifier (world port) = some BACKEND_IDENTIFIER ∧
    (rt = true → ∃ t, tok = some t ∧ t ≠ "") := by
  unfold check_backend_on_port at h
  split at h
  · cases h
  case h_2 success body heq =>
    split at h
    · cases h
    case isFalse hsucc =>
      have hs : success = true := by
        cases success
        · simp at hsucc
        · rfl
      split at h
      · cases h
      case h_2 v =>
        split at h
        · cases h
        case h_2 data heqd =>
          split at h
          · cases h
          case h_2 ident heqi =>
            split at h
            · cases h
            case isFalse hident =>
              have hid : ident = BACKEND_IDENTIFIER := by
                by_contra hc
                exact hident hc
              split at h
              · cases h
              case isFalse hcond =>
                have hinj := Option.some.inj h
                have htok : tok = tokenOf data :=
                  (Prod.mk.injEq _ _ _ _ ▸ hinj).2.symm
                constructor
                · simp [probedIdentifier, heq, hs, heqd, heqi, hid]
                · intro hrt
                  subst hrt
                  cases hto : tokenOf data with
                  | none => rw [hto] at hcond; simp at hcond
                  | some t =>
                    exact ⟨t, by rw [htok, hto], tokenOf_some_ne_empty data t hto⟩

/-- C2: `check_backend_on_port` and `discover_existing_backend` adopt a
candidate only when the probed response's `data.identifier` equals the
compiled-in constant; any other identifier is never adopted even on a
successful HTTP call, and with `require_token` set only candidates carrying
a non-empty boot token are returned. -/
theorem discovery_identifier_gate (world : Nat → ProbeResult) (rt : Bool)
    (port p : Nat) (tok : Option String) :
    (check_backend_on_port world port rt = some (p, tok) →
      probedIdentifier (world port) = some BACKEND_IDENTIFIER ∧
      (rt = true → ∃ t, tok = some t ∧ t ≠ "")) ∧
    (discover_existing_backend world rt = some (p, tok) →
      ∃ q ∈ scanPorts,
        probedIdentifier (world q) = some BACKEND_IDENTIFIER ∧
        (rt = true → ∃ t, tok = some t ∧ t ≠ "")) := by
  refine ⟨fun h => check_backend_on_port_spec world port rt p tok h, fun h => ?_⟩
  unfold discover_existing_backend at h
  obtain ⟨q, hq, hcheck⟩ := List.exists_of_findSome?_eq_some h
  exact ⟨q, hq, (check_backend_on_port_spec world q rt p tok hcheck).1,
    (check_backend_on_port_spec world q rt p tok hcheck).2⟩

/-- C2 witness: in a world whose port 8000 answers compatibly with a token,
the token-requiring probe succeeds and the theorem yields the identifier
match and the non-empty token. -/
theorem discovery_identifier_gate_witness :
    probedIdentifier (worldGood 8000) = some BACKEND_IDENTIFIER ∧
    (true = true → ∃ t, (some "tok" : Option String) = some t ∧ t ≠ "") :=
  (discovery_identifier_gate worldGood true 8000 8005 (some "tok")).1 (by decide)

/-- C8 counterexample: on a log whose last banner matching
`running on http://<host>:<port>` names port 9000 while an earlier Uvicorn
banner names 8000, the parser returns 8000, not the last occurrence; and a
banner differing from the pattern only by case (upper-cased scheme) is not
recovered at all. -/
theorem parse_backend_port_counterexample :
    parse_backend_port_from_log logTwoBanners = some 8000 ∧
    parse_backend_port_from_log logTwoBanners ≠ some 9000 ∧
    parse_backend_port_from_log logUpperScheme = none := by
  refine ⟨?_, ?_, ?_⟩ <;> decide

/-- C8 (amended): the parser prefers the exact, case-sensitive banner
`Uvicorn running on http://127.0.0.1:<port>`, and among its occurrences the
last one wins: whenever that needle's last occurrence is followed by digits
reading as a positive port `n`, the parser returns `n` — later banners
phrased differently are not considered, the host is fixed to `127.0.0.1`,
and only the keyword check of the fallback branch is case-insensitive. -/
theorem parse_backend_port_uvicorn_last (content : List Char) (pos n : Nat)
    (hfind : rfindSub content uvicornNeedle = some pos)
    (hscan : scanPortAt content (pos + uvicornNeedle.length) = n)
    (hpos : 0 < n) :
    parse_backend_port_from_log content = some n := by
  simp [parse_backend_port_from_log, uvicornNeedles, tryNeedles, hfind, hscan, hpos]

/-- C8 amended witness: of two Uvicorn banners the later one (port 9100,
needle position 43) wins. -/
theorem parse_backend_port_uvicorn_last_witness :
    parse_backend_port_from_log logTwoUvicorn = some 9100 :=
  parse_backend_port_uvicorn_last logTwoUvicorn 43 9100 (by decide) (by decide)
    (by decide)

/-- After an extraction, a returned path is one whose root re-validated. -/
theorem ensure_post_extract_ok (fs : WinFS) (p : ExePath)
    (h : (ensure_post_extract fs).res = .ok p) :
    validAt (ensure_post_extract fs).fs p = true := by
  unfold ensure_post_extract at h ⊢
  cases hve : fs.validExtractedPost <;> cases hvn : fs.validNestedPost <;>
    simp_all [validAt]
  all_goals (cases h; rfl)

/-- C9 counterexample: with no valid unpacked tree and no bundled archive,
`ensure_backend_executable_available` returns `Ok` with the default expected
path even though no validated backend executable exists there (the stale
tree was just removed), instead of returning an error. -/
theorem ensure_backend_no_zip_counterexample :
    (ensure_backend_executable_available fsNoZip).res = .ok .extractedExe ∧
    validAt (ensure_backend_executable_available fsNoZip).fs .extractedExe = false :=
  ⟨rfl, rfl⟩

/-- C9 (amended): whenever the bundled archive exists, an `Ok` result points
at an existing, validated backend executable (after any extraction the
expected executable was re-validated), and every case in which this cannot
be established returns an error; only when the archive is absent and no
valid pre-unpacked tree is reusable does the function instead return the
default expected path unvalidated. -/
theorem ensure_backend_ok_validated (fs : WinFS) (p : ExePath)
    (hz : fs.zipExists = true)
    (h : (ensure_backend_executable_available fs).res = .ok p) :
    validAt (ensure_backend_executable_available fs).fs p = true := by
  unfold ensure_backend_executable_available at h ⊢
  cases hc1 : fs.validExtracted && !(should_refresh fs) <;>
    cases hc2 : fs.validNested && !(should_refresh fs) <;>
      cases hpe : fs.primaryExtractOk <;>
        cases hss : fs.shellSpawnOk <;>
          cases hst : fs.shellStatusOk <;>
            simp_all [validAt, hz]
  all_goals (first
    | exact ensure_post_extract_ok _ p h
    | (cases h; rfl))

/-- C9 amended witness: a valid unpacked tree with a current stamp is reused
and the returned path is validated. -/
theorem ensure_backend_ok_validated_witness :
    validAt (ensure_backend_executable_available fsFresh).fs .extractedExe = true :=
  ensure_backend_ok_validated fsFresh .extractedExe rfl rfl

/-- `SysInv` holds initially. -/
theorem sysInv_init (p1 i1 p2 i2 : Nat) : SysInv (initSys p1 i1 p2 i2) := by
  simp [SysInv, initSys, obsOk, inRegion, spawnedOf]

set_option maxHeartbeats 1000000 in
/-- `SysInv` is preserved by every step of either caller. -/
theorem sysInv_step (c : Bool) (s : Sys) (h : SysInv s) : SysInv (stepSys c s) := by
  obtain ⟨⟨child, port, starting, cnt⟩, ⟨pc1, mp1, mi1, ob1, r1⟩,
    ⟨pc2, mp2, mi2, ob2, r2⟩⟩ := s
  obtain ⟨hA, hB1, hB2, hC, hF, hG⟩ := h
  simp only [SysInv, obsOk, inRegion, spawnedOf] at *
  cases c
  case false =>
    cases pc2
    case check =>
      cases child <;> simp_all [stepSys, stepTh]
    case swap =>
      cases starting <;> simp_all [stepSys, stepTh]
    all_goals simp_all [stepSys, stepTh]
  case true =>
    cases pc1
    case check =>
      cases child <;> simp_all [stepSys, stepTh]
    case swap =>
      cases starting <;> simp_all [stepSys, stepTh]
    case spawnStep =>
      simp_all [stepSys, stepTh]
      omega
    all_goals simp_all [stepSys, stepTh]

/-- `SysInv` holds after any schedule. -/
theorem sysInv_run (sched : List Bool) (s : Sys) (h : SysInv s) :
    SysInv (runSched sched s) := by
  induction sched generalizing s with
  | nil => exact h
  | cons c rest ih => exact ih _ (sysInv_step c s h)

/-- C10 counterexample: from the no-backend-running state, under schedule
`schedTwoSpawns` (the second caller passes the owned-process check before the
first stores its child, but reaches its flag swap only after the first has
already cleared the flag) the two simultaneous calls spawn TWO processes;
and under `schedZeroPort` the second caller's swap does observe
"already starting", yet the calls return different ports (8000 vs 0). -/
theorem start_concurrent_counterexample :
    (runSched schedTwoSpawns (initSys 8000 11 8001 22)).sh.spawnCount = 2 ∧
    (runSched schedZeroPort (initSys 8000 11 8001 22)).t2.observed = some true ∧
    (runSched schedZeroPort (initSys 8000 11 8001 22)).t1.res =
      some ⟨true, 8000, some 11⟩ ∧
    (runSched schedZeroPort (initSys 8000 11 8001 22)).t2.res =
      some ⟨false, 0, none⟩ := by
  decide

/-- C10 (amended): under every schedule of two simultaneous `start` calls
from the no-backend-running state, if the second caller's atomic
check-and-set observed "already starting", then at most one process is ever
spawned — exactly one once the first caller finishes — and the second
caller, spawning nothing itself, returns the then-recorded port (possibly
still zero, hence possibly differing from the first caller's port) with
`pid = None`.  (Two spawns are possible only when the second caller's swap
lands after the first already cleared the flag, as the counterexample
shows.) -/
theorem start_concurrent_flag_guard (sched : List Bool) (p1 i1 p2 i2 : Nat)
    (hobs : (runSched sched (initSys p1 i1 p2 i2)).t2.observed = some true) :
    (runSched sched (initSys p1 i1 p2 i2)).sh.spawnCount ≤ 1 ∧
    ((runSched sched (initSys p1 i1 p2 i2)).t1.pc = .done →
      (runSched sched (initSys p1 i1 p2 i2)).sh.spawnCount = 1) ∧
    ((runSched sched (initSys p1 i1 p2 i2)).t2.pc = .done →
      ∃ r, (runSched sched (initSys p1 i1 p2 i2)).t2.res = some r ∧
        r.pid = none) := by
  obtain ⟨hA, hB1, hB2, hC, hF, hG⟩ :=
    sysInv_run sched _ (sysInv_init p1 i1 p2 i2)
  have hob1 := hF hobs
  have hsp2 : spawnedOf (runSched sched (initSys p1 i1 p2 i2)).t2 = 0 := by
    rcases hpc : (runSched sched (initSys p1 i1 p2 i2)).t2.pc <;>
      simp_all [spawnedOf, inRegion, obsOk]
  have hsp1le : spawnedOf (runSched sched (initSys p1 i1 p2 i2)).t1 ≤ 1 := by
    rcases hpc : (runSched sched (initSys p1 i1 p2 i2)).t1.pc <;>
      simp [spawnedOf, hpc] <;> split <;> omega
  refine ⟨by omega, ?_, fun hdone => hG hdone hobs⟩
  intro hdone
  have hsp1 : spawnedOf (runSched sched (initSys p1 i1 p2 i2)).t1 = 1 := by
    simp [spawnedOf, hdone, hob1]
  omega

/-- C10 amended witness: under `schedZeroPort` the second caller observed
the flag; at its end one process is spawned and the second caller's result
has no pid. -/
theorem start_concurrent_flag_guard_witness :
    (runSched schedZeroPort (initSys 8000 11 8001 22)).sh.spawnCount ≤ 1 ∧
    ((runSched schedZeroPort (initSys 8000 11 8001 22)).t1.pc = .done →
      (runSched schedZeroPort (initSys 8000 11 8001 22)).sh.spawnCount = 1) ∧
    ((runSched schedZeroPort (initSys 8000 11 8001 22)).t2.pc = .done →
      ∃ r, (runSched schedZeroPort (initSys 8000 11 8001 22)).t2.res = some r ∧
        r.pid = none) :=
  start_concurrent_flag_guard schedZeroPort 8000 11 8001 22 (by decide)

/-- C7 witness: with only port 18050 free, both modes pick 18050. -/
theorem choose_backend_port_fallback_witness :
    (18000 ≤ choose_backend_port availOnly18050 none false ∧
      choose_backend_port availOnly18050 none false ≤ 18100 ∧
      availOnly18050 (choose_backend_port availOnly18050 none false) = true) ∧
    (18000 ≤ choose_backend_port availOnly18050 none true ∧
      choose_backend_port availOnly18050 none true ≤ 18100 ∧
      availOnly18050 (choose_backend_port availOnly18050 none true) = true) :=
  ⟨choose_backend_port_fallback availOnly18050 none false
      (fun p h1 h2 => by simp only [availOnly18050, beq_eq_false_iff_ne]; omega)
      ⟨18050, by decide⟩,
   choose_backend_port_fallback availOnly18050 none true
      (fun p h1 h2 => by simp only [availOnly18050, beq_eq_false_iff_ne]; omega)
      ⟨18050, by decide⟩⟩

end SACV
